import Mathlib

/-!
Shallow embedding of `src/app.py`, a Flask service that drives a (mocked)
Zoho OAuth2 authorization-code flow for (org, user) pairs.

Modelling conventions:
* Python `str` is modelled as `List Char` (abbreviation `Str`); `str s`
  converts a Lean string literal to that representation.
* `datetime` instants are modelled as `Int` seconds; `timedelta(seconds=n)`
  is addition of `n`.  A stored `expires_at` ISO string is represented by
  the result of `datetime.fromisoformat` on it: `some t` for a parseable
  string denoting instant `t`, `none` for an unparseable one (the bare
  `except:` branch at app.py:139-141 maps the parse failure to `None`).
* `uuid.uuid4().hex` values are passed in as explicit parameters (they are
  hexadecimal, hence never contain the underscore character).
* The in-memory store `USER_TOKEN_DATABASE` (a dict of dicts) is modelled
  as a nested association list; `request.args.get` returning `None` or an
  empty value (both falsy in Python) is modelled as the empty `Str`.
* Outbound-call observability: `get_valid_access_token` takes the refresh
  call as a function parameter `refreshFn`; the concrete provider client is
  `refresh_access_token`.  A statement quantified over every `refreshFn`
  expresses that the provider client is not consulted.
-/

abbrev Str := List Char

def str (s : String) : Str := s.data

/-- Number of occurrences of a character in a string. -/
def countChar (c0 : Char) : Str → Nat
  | [] => 0
  | c :: t => (if c = c0 then 1 else 0) + countChar c0 t

/-- Python `s.split(sep)` for a single-character separator: full split,
keeping empty pieces.  Always returns a nonempty list of pieces. -/
def splitOnChar (sep : Char) : Str → List Str
  | [] => [[]]
  | c :: t =>
    if c = sep then [] :: splitOnChar sep t
    else (c :: (splitOnChar sep t).headD []) :: (splitOnChar sep t).tail

/-- Joins pieces with a single-character separator (Python `sep.join`). -/
def intercalateChar (sep : Char) : List Str → Str
  | [] => []
  | [x] => x
  | x :: y :: r => x ++ sep :: intercalateChar sep (y :: r)

/-- Python `s.rsplit(sep, 2)`: at most two splits, taken from the right.
Realised via the full split: when there are more than three pieces, all but
the last two are joined back with the separator. -/
def rsplit_2 (s : Str) : List Str :=
  let parts := splitOnChar '_' s
  if parts.length ≤ 3 then parts
  else intercalateChar '_' (parts.take (parts.length - 2)) ::
    parts.drop (parts.length - 2)

/-- Python `s.startswith(p)` (arguments: pattern first, then the string). -/
def startsWithStr : Str → Str → Bool
  | [], _ => true
  | _ :: _, [] => false
  | p :: ps, c :: cs => if p = c then startsWithStr ps cs else false

/-- One record of `USER_TOKEN_DATABASE[org][user]` (app.py:261-266).
`expires_at` is the stored ISO string represented by its parse result. -/
structure Credential where
  refresh_token : Str
  access_token : Str
  expires_at : Option Int
  authorization_status : Str
deriving DecidableEq, Repr

/-- Association-list update with Python-dict semantics: overwrite the key
in place if present, append otherwise. -/
def alistInsert (k : Str) (v : α) : List (Str × α) → List (Str × α)
  | [] => [(k, v)]
  | (k', v') :: t => if k = k' then (k, v) :: t else (k', v') :: alistInsert k v t

/-- Association-list lookup (Python `d.get(k)` / `k in d`). -/
def alistGet (k : Str) : List (Str × α) → Option α
  | [] => none
  | (k', v') :: t => if k = k' then some v' else alistGet k t

/-- `USER_TOKEN_DATABASE`: org id → (user id → Credential). -/
abbrev UserTokenDatabase := List (Str × List (Str × Credential))

/-- `org_id in db and user_id in db[org_id]` followed by the read
(app.py:131-134). -/
def lookup2 (db : UserTokenDatabase) (org_id user_id : Str) : Option Credential :=
  match alistGet org_id db with
  | none => none
  | some inner => alistGet user_id inner

/-- `if org not in db: db[org] = {}` then `db[org][user] = cred`
(app.py:258-266, also the in-place record update at app.py:156-157). -/
def insert2 (db : UserTokenDatabase) (org_id user_id : Str) (c : Credential) :
    UserTokenDatabase :=
  alistInsert org_id (alistInsert user_id c ((alistGet org_id db).getD [])) db

/-- Successful payload of `exchange_code_for_tokens` (app.py:72-83). -/
structure ExchangeData where
  access_token : Str
  refresh_token : Str
  expires_in : Int
  expires_at : Int
deriving DecidableEq, Repr

/-- Successful payload of `refresh_access_token` (app.py:110-120). -/
structure RefreshData where
  access_token : Str
  expires_in : Int
  expires_at : Int
deriving DecidableEq, Repr

/-- app.py:49-87.  The mock exchange succeeds exactly when the code starts
with `cliq_auth_code_`; `access_hex`/`refresh_hex` stand for the two
`uuid4().hex[:16]` draws; `expires_at = now + (expires_in - 300)`. -/
def exchange_code_for_tokens (now : Int) (access_hex refresh_hex : Str)
    (auth_code : Str) : Option ExchangeData :=
  if startsWithStr (str ("cliq_auth_code_")) auth_code then
    let expires_in : Int := 3600
    some { access_token := str ("ACCESS-") ++ access_hex
           refresh_token := str ("REFRESH-") ++ refresh_hex
           expires_in := expires_in
           expires_at := now + (expires_in - 300) }
  else none

/-- app.py:89-124.  The mock refresh succeeds exactly when the refresh
token starts with `REFRESH-`; `access_hex` stands for `uuid4().hex[:16]`;
`expires_at = now + (expires_in - 300)`. -/
def refresh_access_token (now : Int) (access_hex : Str)
    (refresh_token : Str) : Option RefreshData :=
  if startsWithStr (str ("REFRESH-")) refresh_token then
    let expires_in : Int := 3600
    some { access_token := str ("ACCESS-") ++ access_hex
           expires_in := expires_in
           expires_at := now + (expires_in - 300) }
  else none

/-- app.py:126-163.  Returns the token (or `none`) together with the
resulting database (the Python code mutates `user_data` in place; here the
update is returned).  The refresh call is the parameter `refreshFn`. -/
def get_valid_access_token (now : Int) (refreshFn : Str → Option RefreshData)
    (db : UserTokenDatabase) (org_id user_id : Str) :
    Option Str × UserTokenDatabase :=
  match lookup2 db org_id user_id with
  | none => (none, db)
  | some user_data =>
    match user_data.expires_at with
    | none => (none, db)
    | some expiry_time =>
      if now + 60 < expiry_time then
        (some user_data.access_token, db)
      else
        match refreshFn user_data.refresh_token with
        | some new_tokens =>
          (some new_tokens.access_token,
           insert2 db org_id user_id
             { user_data with
               access_token := new_tokens.access_token
               expires_at := some new_tokens.expires_at })
        | none => (none, db)

/-- The state value built at app.py:206:
`f"{cliq_org_id}_{cliq_user_id}_{uuid.uuid4().hex}"`. -/
def make_state (org_id user_id nonce : Str) : Str :=
  org_id ++ str ("_") ++ user_id ++ str ("_") ++ nonce

/-- The state decoding performed by the callback at app.py:244-248:
`cliq_org_id, cliq_user_id, _ = state.rsplit('_', 2)`, `none` for the
`ValueError` branch. -/
def decode_state (state : Str) : Option (Str × Str) :=
  match rsplit_2 state with
  | [org_id, user_id, _] => some (org_id, user_id)
  | _ => none

/-- Outcome of `/oauth/start` (app.py:194-227): 400, or 202 carrying the
generated state and the simulated callback code
`cliq_auth_code_{cliq_user_id}`. -/
inductive StartResponse where
  | badRequest
  | accepted (state : Str) (simulated_code : Str)
deriving DecidableEq, Repr

/-- app.py:194-227. -/
def start_oauth_flow (nonce : Str) (org_id user_id : Str) : StartResponse :=
  if org_id = [] ∨ user_id = [] then StartResponse.badRequest
  else StartResponse.accepted (make_state org_id user_id nonce)
    (str ("cliq_auth_code_") ++ user_id)

/-- Outcome of `/oauth/callback` (app.py:231-275): 400 missing params,
400 invalid state format, 401 exchange failed, or 200 with the decoded
(org, user) pair. -/
inductive CallbackResponse where
  | missingParams
  | invalidState
  | exchangeFailed
  | authorized (org_id user_id : Str)
deriving DecidableEq, Repr

/-- app.py:231-275.  Returns the response and the resulting database. -/
def oauth_callback (now : Int) (access_hex refresh_hex : Str)
    (db : UserTokenDatabase) (auth_code state : Str) :
    CallbackResponse × UserTokenDatabase :=
  if auth_code = [] ∨ state = [] then (CallbackResponse.missingParams, db)
  else
    match rsplit_2 state with
    | [org_id, user_id, _] =>
      match exchange_code_for_tokens now access_hex refresh_hex auth_code with
      | none => (CallbackResponse.exchangeFailed, db)
      | some token_data =>
        (CallbackResponse.authorized org_id user_id,
         insert2 db org_id user_id
           { refresh_token := token_data.refresh_token
             access_token := token_data.access_token
             expires_at := some token_data.expires_at
             authorization_status := str ("AUTHORIZED") })
    | _ => (CallbackResponse.invalidState, db)

/-- Outcome of `/api/get-user-data` (app.py:279-318): 400 missing params,
403 prompting re-authorization, or 200 with the token and the stored
expiry. -/
inductive UserDataResponse where
  | missingParams
  | forbiddenReauth
  | successData (access_token : Str) (token_expiry : Option Int)
deriving DecidableEq, Repr

/-- app.py:279-318.  On success the code re-reads
`USER_TOKEN_DATABASE[org][user]` for the expiry; that key is present
whenever a token was returned. -/
def get_user_personalized_data (now : Int)
    (refreshFn : Str → Option RefreshData) (db : UserTokenDatabase)
    (org_id user_id : Str) : UserDataResponse × UserTokenDatabase :=
  if org_id = [] ∨ user_id = [] then (UserDataResponse.missingParams, db)
  else
    match get_valid_access_token now refreshFn db org_id user_id with
    | (none, db') => (UserDataResponse.forbiddenReauth, db')
    | (some token, db') =>
      (UserDataResponse.successData token
        (match lookup2 db' org_id user_id with
         | some cred => cred.expires_at
         | none => none), db')

/-- The credential stored by a successful callback that exchanged at
instant `now` with uuid draws `access_hex`, `refresh_hex` (app.py:261-266). -/
def happyCred (now : Int) (access_hex refresh_hex : Str) : Credential :=
  { refresh_token := str ("REFRESH-") ++ refresh_hex
    access_token := str ("ACCESS-") ++ access_hex
    expires_at := some (now + (3600 - 300))
    authorization_status := str ("AUTHORIZED") }

/-- Sample credential, far from expiry at instant 0. -/
def sampleCred : Credential :=
  { refresh_token := str ("REFRESH-0a1b2c3d4e5f6071")
    access_token := str ("ACCESS-9f8e7d6c5b4a3210")
    expires_at := some 100
    authorization_status := str ("AUTHORIZED") }

/-- Sample store holding `sampleCred` for (orgA, u1). -/
def sampleDb : UserTokenDatabase := [(str ("orgA"), [(str ("u1"), sampleCred)])]

/-- Stale credential whose refresh token the provider no longer accepts
(it does not start with `REFRESH-`, the mock's invalid-grant condition). -/
def staleBadGrantCred : Credential :=
  { refresh_token := str ("revoked-grant")
    access_token := str ("ACCESS-old00000000000")
    expires_at := some 0
    authorization_status := str ("AUTHORIZED") }

/-- Store holding `staleBadGrantCred` for (orgA, u1). -/
def staleBadGrantDb : UserTokenDatabase :=
  [(str ("orgA"), [(str ("u1"), staleBadGrantCred)])]

/-- Stale credential with a well-formed refresh token; its refresh can
only fail for transient reasons (the exception branch returning `None`). -/
def staleGoodTokenCred : Credential :=
  { refresh_token := str ("REFRESH-0a1b2c3d4e5f6071")
    access_token := str ("ACCESS-old00000000000")
    expires_at := some 0
    authorization_status := str ("AUTHORIZED") }

/-- Store holding `staleGoodTokenCred` for (orgA, u1). -/
def staleGoodTokenDb : UserTokenDatabase :=
  [(str ("orgA"), [(str ("u1"), staleGoodTokenCred)])]

/-- Credential whose stored `expires_at` string does not parse
(`datetime.fromisoformat` raises), modelled as `none`. -/
def badExpiryCred : Credential :=
  { refresh_token := str ("REFRESH-0a1b2c3d4e5f6071")
    access_token := str ("ACCESS-9f8e7d6c5b4a3210")
    expires_at := none
    authorization_status := str ("AUTHORIZED") }

/-- Store holding `badExpiryCred` for (orgA, u1). -/
def badExpiryDb : UserTokenDatabase :=
  [(str ("orgA"), [(str ("u1"), badExpiryCred)])]

/-! ### Lemmas about the split helpers -/

theorem splitOnChar_ne_nil (sep : Char) (l : Str) : splitOnChar sep l ≠ [] := by
  cases l with
  | nil => simp [splitOnChar]
  | cons c t => by_cases hc : c = sep <;> simp [splitOnChar, hc]

theorem splitOnChar_cons_of_ne_nil {sep : Char} {t : Str} :
    ∃ h r, splitOnChar sep t = h :: r := by
  cases ht : splitOnChar sep t with
  | nil => exact absurd ht (splitOnChar_ne_nil sep t)
  | cons h r => exact ⟨h, r, rfl⟩

theorem splitOnChar_append_sep (sep : Char) (a b : Str) :
    splitOnChar sep (a ++ sep :: b) = splitOnChar sep a ++ splitOnChar sep b := by
  induction a with
  | nil => simp [splitOnChar]
  | cons c t ih =>
    obtain ⟨h, r, ht⟩ := @splitOnChar_cons_of_ne_nil sep t
    rw [List.cons_append]
    by_cases hc : c = sep <;>
      simp [splitOnChar, hc, ih, ht, List.cons_append]

theorem splitOnChar_of_countChar_zero {sep : Char} {l : Str}
    (h : countChar sep l = 0) : splitOnChar sep l = [l] := by
  induction l with
  | nil => rfl
  | cons c t ih =>
    simp only [countChar] at h
    by_cases hc : c = sep
    · simp [hc] at h
    · simp only [hc, if_false, Nat.zero_add] at h
      simp [splitOnChar, ih h, hc]

theorem length_splitOnChar (sep : Char) (l : Str) :
    (splitOnChar sep l).length = countChar sep l + 1 := by
  induction l with
  | nil => rfl
  | cons c t ih =>
    obtain ⟨h, r, ht⟩ := @splitOnChar_cons_of_ne_nil sep t
    rw [ht] at ih
    simp only [List.length_cons] at ih
    by_cases hc : c = sep <;>
      simp [splitOnChar, hc, ht, countChar] <;> omega

theorem intercalateChar_splitOnChar (sep : Char) (l : Str) :
    intercalateChar sep (splitOnChar sep l) = l := by
  induction l with
  | nil => rfl
  | cons c t ih =>
    obtain ⟨h, r, ht⟩ := @splitOnChar_cons_of_ne_nil sep t
    rw [ht] at ih
    by_cases hc : c = sep
    · subst hc
      simp [splitOnChar, ht, intercalateChar, ih]
    · simp only [splitOnChar, hc, if_false, ht, List.headD_cons, List.tail_cons]
      cases r with
      | nil =>
        simp only [intercalateChar] at ih ⊢
        rw [ih]
      | cons x r' =>
        simp only [intercalateChar] at ih ⊢
        rw [List.cons_append, ih]

/-- A state built from a delimiter-free user id and nonce splits back into
exactly the three intended components, whatever the org id contains. -/
theorem rsplit_2_make_state (org_id user_id nonce : Str)
    (hu : countChar '_' user_id = 0) (hn : countChar '_' nonce = 0) :
    rsplit_2 (make_state org_id user_id nonce) = [org_id, user_id, nonce] := by
  have hsplit : splitOnChar '_' (make_state org_id user_id nonce) =
      splitOnChar '_' org_id ++ [user_id, nonce] := by
    have h1 : make_state org_id user_id nonce =
        org_id ++ '_' :: (user_id ++ '_' :: nonce) := by
      simp [make_state, str]
    rw [h1, splitOnChar_append_sep, splitOnChar_append_sep,
      splitOnChar_of_countChar_zero hu, splitOnChar_of_countChar_zero hn]
    rfl
  obtain ⟨h, r, ht⟩ := @splitOnChar_cons_of_ne_nil '_' org_id
  cases r with
  | nil =>
    have horg : h = org_id := by
      have := intercalateChar_splitOnChar '_' org_id
      rw [ht] at this
      simpa [intercalateChar] using this
    subst horg
    simp [rsplit_2, hsplit, ht]
  | cons h2 r2 =>
    have hlen : (splitOnChar '_' org_id ++ [user_id, nonce]).length =
        (splitOnChar '_' org_id).length + 2 := by simp
    have hlpos : 2 ≤ (splitOnChar '_' org_id).length := by
      rw [ht]; simp
    have hgt : ¬ (splitOnChar '_' org_id ++ [user_id, nonce]).length ≤ 3 := by
      rw [hlen]; omega
    have htake : (splitOnChar '_' org_id ++ [user_id, nonce]).take
        ((splitOnChar '_' org_id ++ [user_id, nonce]).length - 2) =
        splitOnChar '_' org_id := by
      rw [hlen, Nat.add_sub_cancel]
      exact List.take_left _ _
    have hdrop : (splitOnChar '_' org_id ++ [user_id, nonce]).drop
        ((splitOnChar '_' org_id ++ [user_id, nonce]).length - 2) =
        [user_id, nonce] := by
      rw [hlen, Nat.add_sub_cancel]
      exact List.drop_left _ _
    simp only [rsplit_2, hsplit, hgt, if_false, htake, hdrop,
      intercalateChar_splitOnChar]

theorem startsWithStr_append (p t : Str) : startsWithStr p (p ++ t) = true := by
  induction p with
  | nil => rfl
  | cons c cs ih => simp [startsWithStr, ih]

theorem alistGet_alistInsert_self (k : Str) (v : α) (l : List (Str × α)) :
    alistGet k (alistInsert k v l) = some v := by
  induction l with
  | nil => simp [alistInsert, alistGet]
  | cons p t ih =>
    obtain ⟨k', v'⟩ := p
    by_cases hk : k = k' <;> simp [alistInsert, alistGet, hk, ih]

theorem lookup2_insert2_self (db : UserTokenDatabase) (org_id user_id : Str)
    (c : Credential) : lookup2 (insert2 db org_id user_id c) org_id user_id = some c := by
  simp [lookup2, insert2, alistGet_alistInsert_self]

example : splitOnChar '_' (str ("a_b_c_n")) =
    [str ("a"), str ("b"), str ("c"), str ("n")] := by decide

example : rsplit_2 (str ("a_b_c_n")) = [str ("a_b"), str ("c"), str ("n")] := by
  decide

example : rsplit_2 (str ("ab")) = [str ("ab")] := by decide

example : decode_state (make_state (str ("a")) (str ("b_c")) (str ("ff"))) =
    some (str ("a_b"), str ("c")) := by decide

theorem gvat_fast_path (now : Int) (refreshFn : Str → Option RefreshData)
    (db : UserTokenDatabase) (org_id user_id : Str) (cred : Credential)
    (e : Int) (hget : lookup2 db org_id user_id = some cred)
    (hexp : cred.expires_at = some e) (hfresh : now + 60 < e) :
    get_valid_access_token now refreshFn db org_id user_id =
      (some cred.access_token, db) := by
  simp [get_valid_access_token, hget, hexp, hfresh]

theorem rsplit_2_length (s : Str) :
    (rsplit_2 s).length = min (countChar '_' s + 1) 3 := by
  simp only [rsplit_2]
  by_cases hle : (splitOnChar '_' s).length ≤ 3
  · rw [if_pos hle, length_splitOnChar]
    rw [length_splitOnChar] at hle
    omega
  · rw [if_neg hle]
    rw [length_splitOnChar] at hle ⊢
    simp [List.length_drop, length_splitOnChar]
    omega

theorem rsplit_2_eq_three {s : Str} (h : 2 ≤ countChar '_' s) :
    ∃ a b c, rsplit_2 s = [a, b, c] := by
  apply List.length_eq_three.mp
  rw [rsplit_2_length]
  omega

/-! ### Claim theorems -/

/-- C1: the state token does NOT round-trip for ids containing the
delimiter.  Evaluating the code at tenant `a`, user `b_c` and a
32-character hex nonce: the callback's `rsplit('_', 2)` decoding of the
state built by `start_oauth_flow` yields `(a_b, c)`, not `(a, b_c)`. -/
theorem C1_decode_of_encode_underscore_user :
    decode_state (make_state (str ("a")) (str ("b_c"))
        (str ("0f3a5c7e9b1d2468af3b5c7d9e1f2460"))) =
      some (str ("a_b"), str ("c")) ∧
    (str ("a_b"), str ("c")) ≠ (str ("a"), str ("b_c")) := by decide

/-- C2: no replay protection exists.  Evaluating the code at the failing
input: after a first successful `oauth_callback` with
`(cliq_auth_code_u1, orgA_u1_<nonce>)`, the identical second call succeeds
again (HTTP 200, credential overwritten) instead of failing with the
invalid-state outcome — no pending-authorization record is consumed. -/
theorem C2_replay_second_call_succeeds :
    (oauth_callback 0 (str ("a1a1b2c3d4e5f607")) (str ("r1a1b2c3d4e5f607")) []
        (str ("cliq_auth_code_u1")) (str ("orgA_u1_0f3a5c7e9b1d2468"))).1 =
      CallbackResponse.authorized (str ("orgA")) (str ("u1")) ∧
    (oauth_callback 0 (str ("a2a1b2c3d4e5f607")) (str ("r2a1b2c3d4e5f607"))
        (oauth_callback 0 (str ("a1a1b2c3d4e5f607")) (str ("r1a1b2c3d4e5f607")) []
          (str ("cliq_auth_code_u1")) (str ("orgA_u1_0f3a5c7e9b1d2468"))).2
        (str ("cliq_auth_code_u1")) (str ("orgA_u1_0f3a5c7e9b1d2468"))).1 =
      CallbackResponse.authorized (str ("orgA")) (str ("u1")) := by decide

/-- C5: fast path.  For every stored credential whose parsed `expires_at`
lies more than 60 seconds after `now`, `get_valid_access_token` returns the
stored access token, for EVERY possible refresh function (so the provider
client is never consulted), and leaves the store unchanged. -/
theorem C5_fast_path (now : Int) (refreshFn : Str → Option RefreshData)
    (db : UserTokenDatabase) (org_id user_id : Str) (cred : Credential)
    (e : Int) (hget : lookup2 db org_id user_id = some cred)
    (hexp : cred.expires_at = some e) (hfresh : now + 60 < e) :
    get_valid_access_token now refreshFn db org_id user_id =
      (some cred.access_token, db) := by
  simp [get_valid_access_token, hget, hexp, hfresh]

/-- Witness for C5: at instant 0 on a credential expiring at 100, the
stored token is returned and the store is untouched. -/
theorem C5_fast_path_witness :
    get_valid_access_token 0 (refresh_access_token 0 (str ("ff"))) sampleDb
      (str ("orgA")) (str ("u1")) = (some sampleCred.access_token, sampleDb) :=
  C5_fast_path 0 _ sampleDb (str ("orgA")) (str ("u1")) sampleCred 100
    (by decide) (by decide) (by decide)

/-- C6: on every successful code exchange and every successful refresh, the
stored absolute expiry equals `now + expires_in - 300` (the 300-second
safety margin subtracted at computation time). -/
theorem C6_expiry_margin (now : Int) (access_hex refresh_hex code rtok : Str)
    (td : ExchangeData) (rd : RefreshData)
    (hx : exchange_code_for_tokens now access_hex refresh_hex code = some td)
    (hr : refresh_access_token now access_hex rtok = some rd) :
    td.expires_at = now + td.expires_in - 300 ∧
    rd.expires_at = now + rd.expires_in - 300 := by
  constructor
  · simp only [exchange_code_for_tokens] at hx
    split at hx
    · cases hx
      show now + (3600 - 300) = now + 3600 - 300
      omega
    · simp at hx
  · simp only [refresh_access_token] at hr
    split at hr
    · cases hr
      show now + (3600 - 300) = now + 3600 - 300
      omega
    · simp at hr

/-- Witness for C6: concrete exchange and refresh at instant 7. -/
theorem C6_expiry_margin_witness :
    (({ access_token := str ("ACCESS-") ++ str ("aa")
        refresh_token := str ("REFRESH-") ++ str ("bb")
        expires_in := 3600
        expires_at := 7 + (3600 - 300) } : ExchangeData)).expires_at =
      7 + ({ access_token := str ("ACCESS-") ++ str ("aa")
             refresh_token := str ("REFRESH-") ++ str ("bb")
             expires_in := 3600
             expires_at := 7 + (3600 - 300) } : ExchangeData).expires_in - 300 ∧
    (({ access_token := str ("ACCESS-") ++ str ("aa")
        expires_in := 3600
        expires_at := 7 + (3600 - 300) } : RefreshData)).expires_at =
      7 + ({ access_token := str ("ACCESS-") ++ str ("aa")
             expires_in := 3600
             expires_at := 7 + (3600 - 300) } : RefreshData).expires_in - 300 :=
  C6_expiry_margin 7 (str ("aa")) (str ("bb")) (str ("cliq_auth_code_x"))
    (str ("REFRESH-z")) _ _ (by decide) (by decide)

/-- C3 counterexample: at instant 100, a stored credential whose stale
refresh token the provider rejects (the mock invalid-grant condition) is
left with `authorization_status = AUTHORIZED` after `get_valid_access_token`
— the claimed transition to `REVOKED` never happens in the code. -/
theorem C3_status_never_revoked_counterexample :
    (get_valid_access_token 100 (refresh_access_token 100 (str ("ff")))
        staleBadGrantDb (str ("orgA")) (str ("u1"))).1 = none ∧
    ((lookup2 (get_valid_access_token 100 (refresh_access_token 100 (str ("ff")))
        staleBadGrantDb (str ("orgA")) (str ("u1"))).2 (str ("orgA"))
        (str ("u1"))).map Credential.authorization_status) =
      some (str ("AUTHORIZED")) ∧
    str ("AUTHORIZED") ≠ str ("REVOKED") := by decide

/-- C3 (amended): when the refresh of a stale credential fails with the
provider's invalid-grant condition, `get_valid_access_token` returns the
unauthorized outcome (`none`) and leaves the store — hence the record and
its `AUTHORIZED` status — completely unchanged; no `REVOKED` marking
exists. -/
theorem C3_invalid_grant_keeps_record (now : Int) (access_hex : Str)
    (db : UserTokenDatabase) (org_id user_id : Str) (cred : Credential)
    (e : Int) (hget : lookup2 db org_id user_id = some cred)
    (hexp : cred.expires_at = some e) (hstale : ¬ now + 60 < e)
    (hbad : startsWithStr (str ("REFRESH-")) cred.refresh_token = false) :
    get_valid_access_token now (refresh_access_token now access_hex) db
        org_id user_id = (none, db) ∧
    lookup2 db org_id user_id = some cred := by
  refine ⟨?_, hget⟩
  simp [get_valid_access_token, hget, hexp, hstale, refresh_access_token, hbad]

/-- Witness for C3 (amended) on the invalid-grant store at instant 100. -/
theorem C3_invalid_grant_keeps_record_witness :
    get_valid_access_token 100 (refresh_access_token 100 (str ("ee")))
        staleBadGrantDb (str ("orgA")) (str ("u1")) = (none, staleBadGrantDb) ∧
    lookup2 staleBadGrantDb (str ("orgA")) (str ("u1")) = some staleBadGrantCred :=
  C3_invalid_grant_keeps_record 100 (str ("ee")) staleBadGrantDb (str ("orgA"))
    (str ("u1")) staleBadGrantCred 0 (by decide) (by decide) (by decide) (by decide)

/-- C4 counterexample: a transient refresh failure (the refresh call's
exception handler returns `None`) yields exactly the same caller-visible
outcome as a missing credential — the 403 re-authorization response — so
no outcome distinct from NotAuthorized exists, contrary to the claim. -/
theorem C4_no_distinct_outcome_counterexample :
    (get_user_personalized_data 100 (fun _ => none) staleGoodTokenDb
        (str ("orgA")) (str ("u1"))).1 = UserDataResponse.forbiddenReauth ∧
    (get_user_personalized_data 100 (fun _ => none) []
        (str ("orgA")) (str ("u1"))).1 = UserDataResponse.forbiddenReauth := by
  decide

/-- C4 (amended): when the refresh of a stale credential fails — the
transient network/5xx case included, since any failing refresh call
returns `None` — the stored credential is left completely unchanged, but
the outcome is `none`, identical to the NotAuthorized outcome returned for
a missing credential, surfaced as the 403 re-authorization response; no
distinct TemporarilyUnavailable outcome exists in the code. -/
theorem C4_refresh_failure_unchanged (now : Int)
    (refreshFn : Str → Option RefreshData) (db : UserTokenDatabase)
    (org_id user_id : Str) (cred : Credential) (e : Int)
    (horg : org_id ≠ []) (huser : user_id ≠ [])
    (hget : lookup2 db org_id user_id = some cred)
    (hexp : cred.expires_at = some e) (hstale : ¬ now + 60 < e)
    (hfail : refreshFn cred.refresh_token = none) :
    get_valid_access_token now refreshFn db org_id user_id = (none, db) ∧
    get_user_personalized_data now refreshFn db org_id user_id =
      (UserDataResponse.forbiddenReauth, db) ∧
    get_valid_access_token now refreshFn [] org_id user_id = (none, []) := by
  have h1 : get_valid_access_token now refreshFn db org_id user_id = (none, db) := by
    simp [get_valid_access_token, hget, hexp, hstale, hfail]
  refine ⟨h1, ?_, ?_⟩
  · simp [get_user_personalized_data, horg, huser, h1]
  · simp [get_valid_access_token, lookup2, alistGet]

/-- Witness for C4 (amended) on a stale credential whose refresh fails. -/
theorem C4_refresh_failure_unchanged_witness :
    get_valid_access_token 100 (fun _ => none) staleGoodTokenDb
        (str ("orgA")) (str ("u1")) = (none, staleGoodTokenDb) ∧
    get_user_personalized_data 100 (fun _ => none) staleGoodTokenDb
        (str ("orgA")) (str ("u1")) =
      (UserDataResponse.forbiddenReauth, staleGoodTokenDb) ∧
    get_valid_access_token 100 (fun _ => none) [] (str ("orgA")) (str ("u1")) =
      (none, []) :=
  C4_refresh_failure_unchanged 100 (fun _ => none) staleGoodTokenDb
    (str ("orgA")) (str ("u1")) staleGoodTokenCred 0 (by decide) (by decide)
    (by decide) (by decide) (by decide) rfl

/-- C7: when the supplied state is well-formed (at least two underscores)
but the code-for-token exchange fails, the callback returns the 401
exchange-failed response and the store is returned exactly as it was. -/
theorem C7_exchange_failure_atomic (now : Int) (access_hex refresh_hex : Str)
    (db : UserTokenDatabase) (code s : Str)
    (hcode : code ≠ []) (hs : s ≠ []) (hfmt : 2 ≤ countChar '_' s)
    (hfail : startsWithStr (str ("cliq_auth_code_")) code = false) :
    oauth_callback now access_hex refresh_hex db code s =
      (CallbackResponse.exchangeFailed, db) := by
  obtain ⟨a, b, c, habc⟩ := rsplit_2_eq_three hfmt
  simp [oauth_callback, hcode, hs, habc, exchange_code_for_tokens, hfail]

/-- Witness for C7: a rejected code (`badcode`) with a well-formed state
leaves `sampleDb` untouched. -/
theorem C7_exchange_failure_atomic_witness :
    oauth_callback 0 (str ("aa")) (str ("bb")) sampleDb (str ("badcode"))
      (str ("orgA_u1_0f3a5c7e9b1d2468")) =
    (CallbackResponse.exchangeFailed, sampleDb) :=
  C7_exchange_failure_atomic 0 (str ("aa")) (str ("bb")) sampleDb
    (str ("badcode")) (str ("orgA_u1_0f3a5c7e9b1d2468"))
    (by decide) (by decide) (by decide) (by decide)

/-- C10: a stored credential whose `expires_at` string does not parse
(`datetime.fromisoformat` raises, modelled as `none`) makes
`get_valid_access_token` return the unauthorized outcome `none` with the
store unchanged — the bare `except:` swallows the error — and the caller
surfaces it as the 403 response; no exception escapes. -/
theorem C10_unparseable_expiry (now : Int)
    (refreshFn : Str → Option RefreshData) (db : UserTokenDatabase)
    (org_id user_id : Str) (cred : Credential)
    (horg : org_id ≠ []) (huser : user_id ≠ [])
    (hget : lookup2 db org_id user_id = some cred)
    (hexp : cred.expires_at = none) :
    get_valid_access_token now refreshFn db org_id user_id = (none, db) ∧
    get_user_personalized_data now refreshFn db org_id user_id =
      (UserDataResponse.forbiddenReauth, db) := by
  have h1 : get_valid_access_token now refreshFn db org_id user_id = (none, db) := by
    simp [get_valid_access_token, hget, hexp]
  exact ⟨h1, by simp [get_user_personalized_data, horg, huser, h1]⟩

/-- Witness for C10 on a store whose credential has an unparseable expiry. -/
theorem C10_unparseable_expiry_witness :
    get_valid_access_token 0 (refresh_access_token 0 (str ("ff"))) badExpiryDb
        (str ("orgA")) (str ("u1")) = (none, badExpiryDb) ∧
    get_user_personalized_data 0 (refresh_access_token 0 (str ("ff")))
        badExpiryDb (str ("orgA")) (str ("u1"))
      = (UserDataResponse.forbiddenReauth, badExpiryDb) :=
  C10_unparseable_expiry 0 (refresh_access_token 0 (str ("ff"))) badExpiryDb
    (str ("orgA")) (str ("u1")) badExpiryCred (by decide) (by decide)
    (by decide) (by decide)

/-- C8 counterexample: for tenant `a` and user `b_c` (an id containing the
delimiter), running the full flow — `start_oauth_flow`, then the callback
with the matching simulated code and state — stores the credential under
the wrong key `(a_b, c)`, so `get_valid_access_token` for `(a, b_c)`
returns the failure `none` instead of the token. -/
theorem C8_underscore_user_counterexample :
    start_oauth_flow (str ("0f3a5c7e9b1d2468af3b5c7d9e1f2460")) (str ("a"))
        (str ("b_c")) =
      StartResponse.accepted
        (make_state (str ("a")) (str ("b_c"))
          (str ("0f3a5c7e9b1d2468af3b5c7d9e1f2460")))
        (str ("cliq_auth_code_b_c")) ∧
    (oauth_callback 0 (str ("a1a1b2c3d4e5f607")) (str ("r1a1b2c3d4e5f607")) []
        (str ("cliq_auth_code_b_c"))
        (make_state (str ("a")) (str ("b_c"))
          (str ("0f3a5c7e9b1d2468af3b5c7d9e1f2460")))).1 =
      CallbackResponse.authorized (str ("a_b")) (str ("c")) ∧
    (get_valid_access_token 0 (refresh_access_token 0 (str ("ff")))
        (oauth_callback 0 (str ("a1a1b2c3d4e5f607")) (str ("r1a1b2c3d4e5f607")) []
          (str ("cliq_auth_code_b_c"))
          (make_state (str ("a")) (str ("b_c"))
            (str ("0f3a5c7e9b1d2468af3b5c7d9e1f2460")))).2
        (str ("a")) (str ("b_c"))).1 = none := by decide

/-- C8 (amended): for every non-empty tenant and user id whose user id is
free of the delimiter character (as is the hex nonce), starting the flow
and completing it with the matching simulated code and state stores a
credential with status AUTHORIZED under (tenant, user), and
`get_valid_access_token` then returns its access token — for every refresh
function, the fast path applying since the token is fresh. -/
theorem C8_happy_path (now : Int) (nonce access_hex refresh_hex : Str)
    (db : UserTokenDatabase) (org_id user_id : Str)
    (horg : org_id ≠ []) (huser : user_id ≠ [])
    (hu : countChar '_' user_id = 0) (hn : countChar '_' nonce = 0) :
    start_oauth_flow nonce org_id user_id =
      StartResponse.accepted (make_state org_id user_id nonce)
        (str ("cliq_auth_code_") ++ user_id) ∧
    oauth_callback now access_hex refresh_hex db
        (str ("cliq_auth_code_") ++ user_id) (make_state org_id user_id nonce) =
      (CallbackResponse.authorized org_id user_id,
       insert2 db org_id user_id (happyCred now access_hex refresh_hex)) ∧
    (happyCred now access_hex refresh_hex).authorization_status =
      str ("AUTHORIZED") ∧
    ∀ refreshFn,
      get_valid_access_token now refreshFn
          (insert2 db org_id user_id (happyCred now access_hex refresh_hex))
          org_id user_id =
        (some (happyCred now access_hex refresh_hex).access_token,
         insert2 db org_id user_id (happyCred now access_hex refresh_hex)) := by
  have hstate_ne : make_state org_id user_id nonce ≠ [] := by
    simp [make_state, str, horg]
  have hcode_ne : str ("cliq_auth_code_") ++ user_id ≠ [] := by
    intro h
    rw [List.append_eq_nil] at h
    exact absurd h.1 (by decide)
  have hdec := rsplit_2_make_state org_id user_id nonce hu hn
  have hst : startsWithStr (str ("cliq_auth_code_"))
      (str ("cliq_auth_code_") ++ user_id) = true := startsWithStr_append _ _
  have hlt : now + 60 < now + (3600 - 300) := by omega
  refine ⟨?_, ?_, rfl, ?_⟩
  · simp [start_oauth_flow, horg, huser]
  · simp [oauth_callback, hcode_ne, hstate_ne, hdec, exchange_code_for_tokens,
      hst, happyCred]
  · intro refreshFn
    exact gvat_fast_path now refreshFn _ org_id user_id
      (happyCred now access_hex refresh_hex) (now + (3600 - 300))
      (lookup2_insert2_self db org_id user_id _) rfl hlt

/-- Witness for C8 (amended): tenant `orgA`, user `u1`, concrete hex nonce,
empty initial store, at instant 0. -/
theorem C8_happy_path_witness :
    start_oauth_flow (str ("0f3a5c7e9b1d2468af3b5c7d9e1f2460")) (str ("orgA"))
        (str ("u1")) =
      StartResponse.accepted
        (make_state (str ("orgA")) (str ("u1"))
          (str ("0f3a5c7e9b1d2468af3b5c7d9e1f2460")))
        (str ("cliq_auth_code_") ++ str ("u1")) ∧
    oauth_callback 0 (str ("a1a1b2c3d4e5f607")) (str ("r1a1b2c3d4e5f607")) []
        (str ("cliq_auth_code_") ++ str ("u1"))
        (make_state (str ("orgA")) (str ("u1"))
          (str ("0f3a5c7e9b1d2468af3b5c7d9e1f2460"))) =
      (CallbackResponse.authorized (str ("orgA")) (str ("u1")),
       insert2 [] (str ("orgA")) (str ("u1"))
         (happyCred 0 (str ("a1a1b2c3d4e5f607")) (str ("r1a1b2c3d4e5f607")))) ∧
    (happyCred 0 (str ("a1a1b2c3d4e5f607"))
        (str ("r1a1b2c3d4e5f607"))).authorization_status = str ("AUTHORIZED") ∧
    ∀ refreshFn,
      get_valid_access_token 0 refreshFn
          (insert2 [] (str ("orgA")) (str ("u1"))
            (happyCred 0 (str ("a1a1b2c3d4e5f607")) (str ("r1a1b2c3d4e5f607"))))
          (str ("orgA")) (str ("u1")) =
        (some (happyCred 0 (str ("a1a1b2c3d4e5f607"))
            (str ("r1a1b2c3d4e5f607"))).access_token,
         insert2 [] (str ("orgA")) (str ("u1"))
           (happyCred 0 (str ("a1a1b2c3d4e5f607")) (str ("r1a1b2c3d4e5f607")))) :=
  C8_happy_path 0 (str ("0f3a5c7e9b1d2468af3b5c7d9e1f2460"))
    (str ("a1a1b2c3d4e5f607")) (str ("r1a1b2c3d4e5f607")) [] (str ("orgA"))
    (str ("u1")) (by decide) (by decide) (by decide) (by decide)

/-- C9: with both parameters supplied, the callback returns the
invalid-state failure exactly when the state has fewer than two underscore
characters; any state with at least two underscores is decoded by
`rsplit('_', 2)` and accepted whatever the store contains (no nonce or
pending-entry check), succeeding outright when the code is valid. -/
theorem C9_state_validation (now : Int) (access_hex refresh_hex : Str)
    (db : UserTokenDatabase) (code s : Str)
    (hcode : code ≠ []) (hs : s ≠ []) :
    ((oauth_callback now access_hex refresh_hex db code s).1 =
        CallbackResponse.invalidState ↔ countChar '_' s < 2) ∧
    (2 ≤ countChar '_' s →
      startsWithStr (str ("cliq_auth_code_")) code = true →
      ∃ org_id user_id nonce, rsplit_2 s = [org_id, user_id, nonce] ∧
        (oauth_callback now access_hex refresh_hex db code s).1 =
          CallbackResponse.authorized org_id user_id) := by
  constructor
  · constructor
    · intro hresp
      by_contra hge
      push_neg at hge
      obtain ⟨a, b, c, habc⟩ := rsplit_2_eq_three hge
      simp [oauth_callback, hcode, hs, habc] at hresp
      cases hx : exchange_code_for_tokens now access_hex refresh_hex code <;>
        simp [hx] at hresp
    · intro hlt
      have hlen := rsplit_2_length s
      rcases hr : rsplit_2 s with _ | ⟨a, _ | ⟨b, _ | ⟨c, r⟩⟩⟩ <;>
        rw [hr] at hlen <;> simp at hlen
      · omega
      · simp [oauth_callback, hcode, hs, hr]
      · simp [oauth_callback, hcode, hs, hr]
      · omega
  · intro h2 hstart
    obtain ⟨a, b, c, habc⟩ := rsplit_2_eq_three h2
    exact ⟨a, b, c, habc, by
      simp [oauth_callback, hcode, hs, habc, exchange_code_for_tokens, hstart]⟩

/-- Witness for C9: a forged state `x_y_z` that no start call ever issued
is accepted with a valid code; a one-underscore state is rejected. -/
theorem C9_state_validation_witness :
    ((oauth_callback 0 (str ("aa")) (str ("bb")) [] (str ("cliq_auth_code_u1"))
        (str ("x_y_z"))).1 = CallbackResponse.invalidState ↔
      countChar '_' (str ("x_y_z")) < 2) ∧
    (2 ≤ countChar '_' (str ("x_y_z")) →
      startsWithStr (str ("cliq_auth_code_")) (str ("cliq_auth_code_u1")) = true →
      ∃ org_id user_id nonce, rsplit_2 (str ("x_y_z")) = [org_id, user_id, nonce] ∧
        (oauth_callback 0 (str ("aa")) (str ("bb")) [] (str ("cliq_auth_code_u1"))
            (str ("x_y_z"))).1 =
          CallbackResponse.authorized org_id user_id) :=
  C9_state_validation 0 (str ("aa")) (str ("bb")) [] (str ("cliq_auth_code_u1"))
    (str ("x_y_z")) (by decide) (by decide)
